import Mathlib

/-!
Verification of the filter-and-aggregate pipeline of the Zomato delivery
analytics dashboard (src/dashboard.py) against its design specification.

The script manipulates a pandas dataframe.  We embed a dataframe as a
`Table`: a list of column names together with a list of rows, each row a
list of cell values aligned positionally with the column names.  A cell is
numeric (modelled as `ℚ`; the script only adds, counts and divides, so
rationals are exact), a string, or missing (pandas `NaN`).  A float result
that can be `NaN` is modelled as `Option ℚ`, with `none` for `NaN`.
-/

/-- A cell of the dataframe: a number, a string, or a missing value (NaN). -/
inductive Value where
  | num (q : ℚ)
  | str (s : String)
  | missing
deriving DecidableEq, Repr

/-- A row: the cell values, positionally aligned with the table's columns. -/
abbrev Row := List Value

/-- An in-memory dataframe: named columns plus rows of cells. -/
structure Table where
  cols : List String
  rows : List Row
deriving DecidableEq, Repr

/-- Membership test `c in df.columns` used throughout the script. -/
def hasCol (t : Table) (c : String) : Bool := t.cols.contains c

/-- The cell of row `r` at column `c`, given the column-name list; a column
that does not exist (or a ragged row) reads as a missing value. -/
def lookupCell (cols : List String) (r : Row) (c : String) : Value :=
  match cols.findIdx? (fun x => x == c) with
  | some i => r.getD i Value.missing
  | none => Value.missing

/-- The cell of row `r` of table `t` at column `c` (`df[c]` per row). -/
def getCell (t : Table) (r : Row) (c : String) : Value :=
  lookupCell t.cols r c

/-- The column `df[c]` as a list of cells, one per row. -/
def colValues (t : Table) (c : String) : List Value :=
  t.rows.map (fun r => getCell t r c)

/-- The numeric entries of a column, dropping missing and non-numeric cells
(pandas `mean`/histograms skip NaN). -/
def numericVals (vs : List Value) : List ℚ :=
  vs.filterMap (fun v => match v with | Value.num q => some q | _ => none)

/-- Arithmetic mean of a list of rationals; `none` (NaN) on the empty list,
as pandas `Series.mean` of an empty series. -/
def meanQ (xs : List ℚ) : Option ℚ :=
  if xs.isEmpty then none else some (xs.sum / xs.length)

/-- `df[c].mean()`: arithmetic mean of the non-missing values of column `c`;
`none` (NaN) when there are no non-missing values. -/
def scalarMean (t : Table) (c : String) : Option ℚ :=
  meanQ (numericVals (colValues t c))

/-- The sidebar filter state: one selected value per filterable column,
with `"All"` as the no-constraint sentinel (src/dashboard.py:63-76). -/
structure FilterSel where
  city : String
  weather : String
  vehicle : String
  festival : String
deriving DecidableEq, Repr

/-- One step of the filter chain: when `b` (the guard
`selected != 'All' and col in df.columns`) holds, keep the rows whose cell
at `c` equals the selected string (`filtered_df[filtered_df[c] == v]`). -/
def filterEq (t : Table) (c v : String) (b : Bool) : Table :=
  if b then
    { t with rows := t.rows.filter (fun r => lookupCell t.cols r c == Value.str v) }
  else t

/-- The filter engine, src/dashboard.py:79-87: starting from a copy of the
table, apply the city, weather, vehicle and festival equality filters in
order, each only when its selection is not `"All"` and its column exists in
the original dataframe. -/
def filteredDf (df : Table) (sel : FilterSel) : Table :=
  let t1 := filterEq df "City" sel.city (!(sel.city == "All") && hasCol df "City")
  let t2 := filterEq t1 "Weather_conditions" sel.weather
    (!(sel.weather == "All") && hasCol df "Weather_conditions")
  let t3 := filterEq t2 "Type_of_vehicle" sel.vehicle
    (!(sel.vehicle == "All") && hasCol df "Type_of_vehicle")
  filterEq t3 "Festival" sel.festival
    (!(sel.festival == "All") && hasCol df "Festival")

/-- What the code keeps for a single filter entry: either the entry is
inactive (selection `"All"`, or column absent from the dataframe) or the
row's cell at that column equals the selected value. -/
def keepEntry (cols : List String) (c v : String) (r : Row) : Bool :=
  !(!(v == "All") && cols.contains c) || (lookupCell cols r c == Value.str v)

/-- The row predicate realised by the four chained filters of
src/dashboard.py:79-87 (conjunction order is immaterial). -/
def rowKeepCode (cols : List String) (sel : FilterSel) (r : Row) : Bool :=
  keepEntry cols "Festival" sel.festival r &&
    (keepEntry cols "Type_of_vehicle" sel.vehicle r &&
      (keepEntry cols "Weather_conditions" sel.weather r &&
        keepEntry cols "City" sel.city r))

/-- The spec's row predicate: for each selection entry whose value is not
`"All"`, the row's cell at that column equals the selected value. -/
def specEntry (cols : List String) (c v : String) (r : Row) : Bool :=
  (v == "All") || (lookupCell cols r c == Value.str v)

/-- Conjunction of `specEntry` over the four filterable columns. -/
def specKeep (cols : List String) (sel : FilterSel) (r : Row) : Bool :=
  specEntry cols "Festival" sel.festival r &&
    (specEntry cols "Type_of_vehicle" sel.vehicle r &&
      (specEntry cols "Weather_conditions" sel.weather r &&
        specEntry cols "City" sel.city r))

/-- Scenario A table of the spec: columns `City=[A,A,B]`,
`Time_taken (min)=[20,30,40]`. -/
def tblA : Table :=
  { cols := ["City", "Time_taken (min)"],
    rows := [[Value.str "A", Value.num 20], [Value.str "A", Value.num 30],
             [Value.str "B", Value.num 40]] }

/-- Scenario A selection: `City=A`, every other filter at `"All"`. -/
def selA : FilterSel := { city := "A", weather := "All", vehicle := "All", festival := "All" }

/-- `len(filtered_df)`, src/dashboard.py:94. -/
def total_deliveries (t : Table) : ℕ := t.rows.length

/-- `(filtered_df['delivery_performance'] == 'Excellent').sum()` guarded by
column presence, src/dashboard.py:106. -/
def excellent_deliveries (t : Table) : ℕ :=
  if hasCol t "delivery_performance" then
    (colValues t "delivery_performance").countP (fun v => v == Value.str "Excellent")
  else 0

/-- `excellent_pct`, src/dashboard.py:107: guarded against a zero row count. -/
def excellent_pct (t : Table) : ℚ :=
  if 0 < total_deliveries t then
    (excellent_deliveries t : ℚ) / (total_deliveries t : ℚ) * 100
  else 0

/-- `(filtered_df['customer_satisfaction'] == 'High').sum()` guarded by
column presence, src/dashboard.py:111. -/
def high_satisfaction (t : Table) : ℕ :=
  if hasCol t "customer_satisfaction" then
    (colValues t "customer_satisfaction").countP (fun v => v == Value.str "High")
  else 0

/-- `satisfaction_pct`, src/dashboard.py:112: guarded against a zero row count. -/
def satisfaction_pct (t : Table) : ℚ :=
  if 0 < total_deliveries t then
    (high_satisfaction t : ℚ) / (total_deliveries t : ℚ) * 100
  else 0

/-- `(series == s).mean() * 100` over a column: the fraction of cells equal
to the string `s`, times 100; NaN (`none`) on an empty column, since the
pandas mean of an empty boolean series is NaN. -/
def eqMeanPct (vs : List Value) (s : String) : Option ℚ :=
  if vs.isEmpty then none
  else some ((vs.countP (fun v => v == Value.str s) : ℚ) / (vs.length : ℚ) * 100)

/-- Business-insights percentage of excellent deliveries,
src/dashboard.py:327-329: the outer `none` means the block is skipped
(column absent); the inner `Option` is the possibly-NaN float shown. -/
def insight_excellent_pct (t : Table) : Option (Option ℚ) :=
  if hasCol t "delivery_performance" then
    some (eqMeanPct (colValues t "delivery_performance") "Excellent")
  else none

/-- Business-insights percentage of highly satisfied customers,
src/dashboard.py:331-333. -/
def insight_high_sat_pct (t : Table) : Option (Option ℚ) :=
  if hasCol t "customer_satisfaction" then
    some (eqMeanPct (colValues t "customer_satisfaction") "High")
  else none

/-- Business-insights percentage of peak-hour orders,
src/dashboard.py:335-337: `filtered_df['is_peak_hour'].mean() * 100`. -/
def insight_peak_pct (t : Table) : Option (Option ℚ) :=
  if hasCol t "is_peak_hour" then
    some ((scalarMean t "is_peak_hour").map (fun m => m * 100))
  else none

/-- The Business-insights table of the C2 counterexample: the
`delivery_performance` column exists but the filtered table has no rows. -/
def tblEmptyPerf : Table := { cols := ["delivery_performance"], rows := [] }

/-- A one-row table whose `is_peak_hour` column holds the number 2: its
Business-insights percentage (`mean() * 100`, src/dashboard.py:336) is 200,
outside `[0, 100]`. -/
def tblPeak2 : Table := { cols := ["is_peak_hour"], rows := [[Value.num 2]] }

/-- `avg_time`, src/dashboard.py:98: the mean delivery time when the column
exists, and the literal `0` when it does not. -/
def avg_time (t : Table) : Option ℚ :=
  if hasCol t "Time_taken (min)" then scalarMean t "Time_taken (min)" else some 0

/-- `avg_rating`, src/dashboard.py:102: the mean rating when the column
exists, and the literal `0` when it does not. -/
def avg_rating (t : Table) : Option ℚ :=
  if hasCol t "Delivery_person_Ratings" then scalarMean t "Delivery_person_Ratings" else some 0

/-- A table without the `Time_taken (min)` column. -/
def tblNoTime : Table := { cols := ["City"], rows := [[Value.str "A"]] }

/-- A table with the `Time_taken (min)` column but no rows. -/
def tblTimeEmpty : Table := { cols := ["Time_taken (min)"], rows := [] }

/-- The qualitative styling of a rendered insight message: `st.warning`,
`st.success` or `st.info`. -/
inductive MsgStyle where
  | warning
  | success
  | info
deriving DecidableEq, Repr

/-- The Operational-Insights block, src/dashboard.py:343-353: when its
column is present, each message is emitted with a fixed style and carries
only the metric value (the average delivery time as a warning, the average
rating as a success, the festival percentage as an info); there is no
branching on the metric value. -/
def operationalInsights (t : Table) : List (MsgStyle × Option ℚ) :=
  (if hasCol t "Time_taken (min)" then
    [(MsgStyle.warning, scalarMean t "Time_taken (min)")] else []) ++
  (if hasCol t "Delivery_person_Ratings" then
    [(MsgStyle.success, scalarMean t "Delivery_person_Ratings")] else []) ++
  (if hasCol t "Festival" then
    [(MsgStyle.info, eqMeanPct (colValues t "Festival") "Yes")] else [])

/-- Modelled from the spec: the claimed first-match threshold rule for the
average delivery time (`≤25` excellent, `≤35` moderate, else needs
improvement); no such rule occurs anywhere in src/dashboard.py. -/
def specTimeLabel (avg : ℚ) : String :=
  if avg ≤ 25 then "excellent" else if avg ≤ 35 then "moderate" else "needs improvement"

/-- Modelled from the spec: the claimed first-match threshold rule for the
average rating (`≥4.5` excellent, `≥4.0` good, else needs attention); no
such rule occurs anywhere in src/dashboard.py. -/
def specRatingLabel (avg : ℚ) : String :=
  if 4.5 ≤ avg then "excellent" else if 4 ≤ avg then "good" else "needs attention"

/-- A one-row table whose average delivery time is 20 (within the claimed
excellent band). -/
def tblFast : Table := { cols := ["Time_taken (min)"], rows := [[Value.num 20]] }

/-- A one-row table whose average delivery time is 100 (within the claimed
needs-improvement band). -/
def tblSlow : Table := { cols := ["Time_taken (min)"], rows := [[Value.num 100]] }

/-- The Raw-Data section, src/dashboard.py:360-362: the script shows
`filtered_df.head(1000)` — the first (up to) 1000 rows of the filtered
table — with a caption giving the total row count; it has no page size or
page index. -/
def rawDataDisplay (t : Table) : List Row := t.rows.take 1000

/-- Modelled from the spec: `total_pages = ceil(row_count / page_size)`,
with one page for an empty table; no pagination exists in
src/dashboard.py. -/
def total_pages (row_count page_size : ℕ) : ℕ :=
  if row_count = 0 then 1 else (row_count + page_size - 1) / page_size

/-- Modelled from the spec: clamping of a 1-based page index into
`[1, total_pages]`; no pagination exists in src/dashboard.py. -/
def clampPage (page_index tp : ℕ) : ℕ := max 1 (min page_index tp)

/-- Modelled from the spec: the claimed `paginate` returning the clamped
1-based page slice; no pagination exists in src/dashboard.py. -/
def paginateSpec (t : Table) (page_size page_index : ℕ) : List Row :=
  let pi := clampPage page_index (total_pages t.rows.length page_size)
  (t.rows.drop ((pi - 1) * page_size)).take page_size

/-- A 23-row table, the concrete instance named by the claim. -/
def tbl23 : Table := { cols := ["x"], rows := List.replicate 23 [Value.missing] }

/-- Minimum of the nonempty list `x :: xs`. -/
def listMin (x : ℚ) (xs : List ℚ) : ℚ := xs.foldl min x

/-- Maximum of the nonempty list `x :: xs`. -/
def listMax (x : ℚ) (xs : List ℚ) : ℚ := xs.foldl max x

/-- Modelled from the spec: a bin's label is its numeric range. -/
def binLabel (lo hi : ℚ) : String := toString lo ++ "-" ++ toString hi

/-- Modelled from the spec: membership of `x` in bin `i` of `k` equal-width
bins of width `w` starting at `mn`: half-open `[low, high)` except the last
bin, which is closed at `mx`. -/
def inBin (mn w mx : ℚ) (k i : ℕ) (x : ℚ) : Bool :=
  if i + 1 = k then decide (mn + (i : ℚ) * w ≤ x ∧ x ≤ mx)
  else decide (mn + (i : ℚ) * w ≤ x ∧ x < mn + ((i : ℚ) + 1) * w)

/-- Modelled from the spec: the Distribution Binner, realised in the
dashboard by the external `px.histogram(..., nbins=...)` calls at
src/dashboard.py:137-153.  Missing values are dropped by the caller
(`numericVals`); if the minimum equals the maximum a single bin spans that
point, else `[min, max]` splits into `k` equal-width bins, half-open except
the last, and each bin is labelled with its numeric range. -/
def histogram (xs : List ℚ) (k : ℕ) : List (String × ℕ) :=
  match xs with
  | [] => []
  | x :: rest =>
    if listMin x rest = listMax x rest then
      [(binLabel (listMin x rest) (listMax x rest), (x :: rest).length)]
    else
      (List.range k).map (fun (i : ℕ) =>
        (binLabel (listMin x rest + (i : ℚ) * ((listMax x rest - listMin x rest) / (k : ℚ)))
          (listMin x rest + ((i : ℚ) + 1) * ((listMax x rest - listMin x rest) / (k : ℚ))),
         (x :: rest).countP
           (inBin (listMin x rest) ((listMax x rest - listMin x rest) / (k : ℚ))
             (listMax x rest) k i)))

/-- The histogram of a table column: drop the missing values, then bin. -/
def histogramT (t : Table) (c : String) (k : ℕ) : List (String × ℕ) :=
  histogram (numericVals (colValues t c)) k

/-- Scenario C column of the spec: the numeric column `[5, 5, 5, 5]`. -/
def tblFives : Table :=
  { cols := ["v"],
    rows := [[Value.num 5], [Value.num 5], [Value.num 5], [Value.num 5]] }

/-- How a cell is rendered in the CSV export: numbers and strings as
themselves, a missing value as the empty field (cell quoting is not
modelled). -/
def csvCell : Value → String
  | Value.num q => toString q
  | Value.str s => s
  | Value.missing => ""

/-- The line structure of `filtered_df.to_csv(index=False)`
(src/dashboard.py:365): the header of column names followed by one line of
cells per row, with no index column prepended. -/
def csvLines (t : Table) : List (List String) :=
  t.cols :: t.rows.map (fun r => r.map csvCell)

/-- The CSV text: comma-delimited fields, newline-terminated lines. -/
def toCsv (t : Table) : String :=
  String.intercalate "\n" ((csvLines t).map (String.intercalate ",")) ++ "\n"

/-- The download payload, src/dashboard.py:365: the CSV of the currently
filtered table. -/
def downloadData (df : Table) (sel : FilterSel) : String := toCsv (filteredDf df sel)

/-- The download file name, src/dashboard.py:369: parameterized by the
selected city and weather. -/
def downloadFileName (sel : FilterSel) : String :=
  "zomato_filtered_data_" ++ sel.city ++ "_" ++ sel.weather ++ ".csv"

/-- The failures the script can actually hit: a pandas `KeyError` from
referencing an absent column, and the pandas `ValueError` raised when an
index of the wrong length is assigned (the weekend relabelling). -/
inductive DashError where
  | missingColumn (c : String)
  | lengthMismatch
deriving DecidableEq, Repr

/-- Reading `df[c]`: the column's values, or a missing-column failure when
`c` is not among the columns (pandas `KeyError`). -/
def requireCol (t : Table) (c : String) : Except DashError (List Value) :=
  if hasCol t c then Except.ok (colValues t c) else Except.error (DashError.missingColumn c)

/-- Insertion of `x` into a list assumed sorted by `le`. -/
def insertBy {α : Type} (le : α → α → Bool) (x : α) : List α → List α
  | [] => [x]
  | y :: ys => if le x y then x :: y :: ys else y :: insertBy le x ys

/-- Insertion sort by the comparison `le`. -/
def sortBy {α : Type} (le : α → α → Bool) (l : List α) : List α :=
  l.foldr (insertBy le) []

/-- The order on cell values used for the sorted group keys of pandas
`groupby`: numbers before strings, each kind by its own order. -/
def valLE : Value → Value → Bool
  | Value.missing, _ => true
  | Value.num _, Value.missing => false
  | Value.num a, Value.num b => decide (a ≤ b)
  | Value.num _, Value.str _ => true
  | Value.str _, Value.missing => false
  | Value.str _, Value.num _ => false
  | Value.str a, Value.str b => decide (a ≤ b)

/-- The group keys of `df.groupby(gc)`: the distinct non-missing values of
the column, in ascending order (pandas drops NaN keys and sorts). -/
def groupKeys (t : Table) (gc : String) : List Value :=
  sortBy valLE ((colValues t gc).filter (fun v => !(v == Value.missing))).eraseDups

/-- `df.groupby(gc)[mc].mean()`: for each group key in order, the
NaN-skipping mean of the measure column over that group's rows. -/
def groupMean (t : Table) (gc mc : String) : List (Value × Option ℚ) :=
  (groupKeys t gc).map (fun g =>
    (g, meanQ (numericVals ((t.rows.filter (fun r => getCell t r gc == g)).map
      (fun r => getCell t r mc)))))

/-- `series.value_counts()`: the distinct non-missing values with their
frequencies, most frequent first. -/
def valueCounts (vs : List Value) : List (Value × ℕ) :=
  sortBy (fun a b => decide (b.2 ≤ a.2))
    (((vs.filter (fun v => !(v == Value.missing))).eraseDups).map
      (fun kv => (kv, vs.countP (fun v => v == kv))))

/-- The ascending order used by `.sort_values()` on a grouped mean: by the
mean, NaN last. -/
def gmAsc (a b : Value × Option ℚ) : Bool :=
  match a.2, b.2 with
  | some x, some y => decide (x ≤ y)
  | some _, none => true
  | none, some _ => false
  | none, none => true

/-- `.sort_values()` on a grouped mean. -/
def sortValuesAsc (g : List (Value × Option ℚ)) : List (Value × Option ℚ) :=
  sortBy gmAsc g

/-- `.sort_values(ascending=False)` on a grouped mean, NaN last. -/
def sortValuesDesc (g : List (Value × Option ℚ)) : List (Value × Option ℚ) :=
  sortBy (fun a b =>
    match a.2, b.2 with
    | some x, some y => decide (y ≤ x)
    | some _, none => true
    | none, some _ => false
    | none, none => true) g

/-- The weekday names used to reorder the day-of-week grouped mean,
src/dashboard.py:260. -/
def daysOrder : List String :=
  ["Monday", "Tuesday", "Wednesday", "Thursday", "Friday", "Saturday", "Sunday"]

/-- `day_performance.reindex([day for day in days_order if day in index])`,
src/dashboard.py:261: keep only the listed days, in the listed order. -/
def dayReindex (g : List (Value × Option ℚ))  : List (Value × Option ℚ) :=
  daysOrder.filterMap (fun d => g.find? (fun p => p.1 == Value.str d))

/-- One rendered artefact of the dashboard: a skipped block, a sidebar
option list, a scalar or percentage metric, a value-count or histogram
chart, a grouped mean, the relabelled weekend chart, a row list, or a text
payload. -/
inductive RenderItem where
  | skipped
  | opts (vs : List Value)
  | metricNat (n : ℕ)
  | metricQ (x : Option ℚ)
  | metricPct (x : ℚ)
  | metricPctM (x : Option ℚ)
  | counts (cs : List (Value × ℕ))
  | hist (bs : List (String × ℕ))
  | gm (g : List (Value × Option ℚ))
  | relabeled (g : List (String × Option ℚ))
  | rowsItem (rs : List Row)
  | textItem (s : String)
deriving DecidableEq, Repr

/-- A guarded render block — the ubiquitous `if c in df.columns:` pattern
of the script: when the column is present its values are read (a fallible
access) and fed to the block body; otherwise the fallback is produced. -/
def guardE {α : Type} (t : Table) (c : String) (f : List Value → α) (dflt : α) :
    Except DashError α :=
  if hasCol t c then
    match requireCol t c with
    | Except.ok vs => Except.ok (f vs)
    | Except.error e => Except.error e
  else Except.ok dflt

/-- A render block guarded on two columns
(`if c1 in ... and c2 in ...:`). -/
def guard2E {α : Type} (t : Table) (c1 c2 : String) (f : List Value → List Value → α)
    (dflt : α) : Except DashError α :=
  if hasCol t c1 && hasCol t c2 then
    match requireCol t c1, requireCol t c2 with
    | Except.ok v1, Except.ok v2 => Except.ok (f v1 v2)
    | Except.error e, _ => Except.error e
    | Except.ok _, Except.error e => Except.error e
  else Except.ok dflt

/-- The weekend-vs-weekday block, src/dashboard.py:247-254: guarded on both
columns; reads them, groups the delivery time by `is_weekend`, and then
positionally assigns the two labels `['Weekday', 'Weekend']` to the group
index — pandas raises a length-mismatch `ValueError` unless the group
index has exactly two entries. -/
def weekendItemE (t : Table) : Except DashError RenderItem :=
  if hasCol t "is_weekend" && hasCol t "Time_taken (min)" then
    match requireCol t "is_weekend", requireCol t "Time_taken (min)" with
    | Except.ok _, Except.ok _ =>
      if (groupMean t "is_weekend" "Time_taken (min)").length = 2 then
        Except.ok (RenderItem.relabeled (List.zip ["Weekday", "Weekend"]
          ((groupMean t "is_weekend" "Time_taken (min)").map Prod.snd)))
      else Except.error DashError.lengthMismatch
    | Except.error e, _ => Except.error e
    | Except.ok _, Except.error e => Except.error e
  else Except.ok RenderItem.skipped

/-- One step of the filter chain as the script executes it: the guard `b`
is `selected != 'All' and col in df.columns`; under the guard the column of
the running filtered table is accessed (fallibly) and the rows are
filtered. -/
def filterEqE (t : Table) (c v : String) (b : Bool) : Except DashError Table :=
  if b then
    match requireCol t c with
    | Except.ok _ => Except.ok
        { t with rows := t.rows.filter (fun r => lookupCell t.cols r c == Value.str v) }
    | Except.error e => Except.error e
  else Except.ok t

/-- The filter chain of src/dashboard.py:79-87 with fallible column
accesses. -/
def filteredDfE (df : Table) (sel : FilterSel) : Except DashError Table :=
  match filterEqE df "City" sel.city (!(sel.city == "All") && hasCol df "City") with
  | Except.error e => Except.error e
  | Except.ok t1 =>
    match filterEqE t1 "Weather_conditions" sel.weather
        (!(sel.weather == "All") && hasCol df "Weather_conditions") with
    | Except.error e => Except.error e
    | Except.ok t2 =>
      match filterEqE t2 "Type_of_vehicle" sel.vehicle
          (!(sel.vehicle == "All") && hasCol df "Type_of_vehicle") with
      | Except.error e => Except.error e
      | Except.ok t3 =>
        filterEqE t3 "Festival" sel.festival
          (!(sel.festival == "All") && hasCol df "Festival")

/-- `100 * k / n` guarded against `n = 0`, the key-metrics percentage
pattern of src/dashboard.py:107,112. -/
def pctOf (k n : ℕ) : ℚ :=
  if 0 < n then (k : ℚ) / (n : ℚ) * 100 else 0

/-- The straight-line sequence of render blocks the script executes over
the original table `df` and the filtered table `ft`, in source order:
sidebar option lists (src/dashboard.py:63-76), key metrics (94-113), the
four tab chart groups (120-316), the business-insight messages (323-353),
the raw-data display (360-362) and the download (365-371). -/
def renderBlocks (df : Table) (sel : FilterSel) (ft : Table) :
    List (Except DashError RenderItem) :=
  [guardE df "City" (fun vs => RenderItem.opts (Value.str "All" :: vs.eraseDups))
    (RenderItem.opts [Value.str "All"]),
   guardE df "Weather_conditions" (fun vs => RenderItem.opts (Value.str "All" :: vs.eraseDups))
    (RenderItem.opts [Value.str "All"]),
   guardE df "Type_of_vehicle" (fun vs => RenderItem.opts (Value.str "All" :: vs.eraseDups))
    (RenderItem.opts [Value.str "All"]),
   guardE df "Festival" (fun vs => RenderItem.opts (Value.str "All" :: vs.eraseDups))
    (RenderItem.opts [Value.str "All"]),
   Except.ok (RenderItem.metricNat (total_deliveries ft)),
   guardE ft "Time_taken (min)" (fun vs => RenderItem.metricQ (meanQ (numericVals vs)))
    (RenderItem.metricQ (some 0)),
   guardE ft "Delivery_person_Ratings" (fun vs => RenderItem.metricQ (meanQ (numericVals vs)))
    (RenderItem.metricQ (some 0)),
   guardE ft "delivery_performance"
    (fun vs => RenderItem.metricPct
      (pctOf (vs.countP (fun v => v == Value.str "Excellent")) (total_deliveries ft)))
    (RenderItem.metricPct (pctOf 0 (total_deliveries ft))),
   guardE ft "customer_satisfaction"
    (fun vs => RenderItem.metricPct
      (pctOf (vs.countP (fun v => v == Value.str "High")) (total_deliveries ft)))
    (RenderItem.metricPct (pctOf 0 (total_deliveries ft))),
   guardE ft "delivery_performance" (fun vs => RenderItem.counts (valueCounts vs))
    RenderItem.skipped,
   guardE ft "Delivery_person_Ratings" (fun vs => RenderItem.hist (histogram (numericVals vs) 20))
    RenderItem.skipped,
   guardE ft "Time_taken (min)" (fun vs => RenderItem.hist (histogram (numericVals vs) 30))
    RenderItem.skipped,
   guardE ft "efficiency_tier" (fun vs => RenderItem.counts (valueCounts vs))
    RenderItem.skipped,
   guard2E ft "City" "Time_taken (min)"
    (fun _ _ => RenderItem.gm (sortValuesAsc (groupMean ft "City" "Time_taken (min)")))
    RenderItem.skipped,
   guard2E ft "distance_category" "Time_taken (min)"
    (fun _ _ => RenderItem.gm (groupMean ft "distance_category" "Time_taken (min)"))
    RenderItem.skipped,
   guard2E ft "Weather_conditions" "Time_taken (min)"
    (fun _ _ => RenderItem.gm (sortValuesDesc (groupMean ft "Weather_conditions" "Time_taken (min)")))
    RenderItem.skipped,
   guard2E ft "Road_traffic_density" "Time_taken (min)"
    (fun _ _ => RenderItem.gm (sortValuesDesc (groupMean ft "Road_traffic_density" "Time_taken (min)")))
    RenderItem.skipped,
   guard2E ft "meal_period" "Time_taken (min)"
    (fun _ _ => RenderItem.gm (groupMean ft "meal_period" "Time_taken (min)"))
    RenderItem.skipped,
   guard2E ft "order_hour" "Time_taken (min)"
    (fun _ _ => RenderItem.gm (groupMean ft "order_hour" "Time_taken (min)"))
    RenderItem.skipped,
   weekendItemE ft,
   guard2E ft "day_type" "Time_taken (min)"
    (fun _ _ => RenderItem.gm (dayReindex (groupMean ft "day_type" "Time_taken (min)")))
    RenderItem.skipped,
   guardE ft "customer_satisfaction" (fun vs => RenderItem.counts (valueCounts vs))
    RenderItem.skipped,
   guardE ft "service_quality" (fun vs => RenderItem.counts (valueCounts vs))
    RenderItem.skipped,
   guardE ft "order_complexity" (fun vs => RenderItem.counts (valueCounts vs))
    RenderItem.skipped,
   guard2E ft "difficulty_level" "Time_taken (min)"
    (fun _ _ => RenderItem.gm (groupMean ft "difficulty_level" "Time_taken (min)"))
    RenderItem.skipped,
   guardE ft "delivery_performance" (fun vs => RenderItem.metricPctM (eqMeanPct vs "Excellent"))
    RenderItem.skipped,
   guardE ft "customer_satisfaction" (fun vs => RenderItem.metricPctM (eqMeanPct vs "High"))
    RenderItem.skipped,
   guardE ft "is_peak_hour"
    (fun vs => RenderItem.metricPctM ((meanQ (numericVals vs)).map (fun m => m * 100)))
    RenderItem.skipped,
   guardE ft "Time_taken (min)" (fun vs => RenderItem.metricQ (meanQ (numericVals vs)))
    RenderItem.skipped,
   guardE ft "Delivery_person_Ratings" (fun vs => RenderItem.metricQ (meanQ (numericVals vs)))
    RenderItem.skipped,
   guardE ft "Festival" (fun vs => RenderItem.metricPctM (eqMeanPct vs "Yes"))
    RenderItem.skipped,
   Except.ok (RenderItem.rowsItem (rawDataDisplay ft)),
   Except.ok (RenderItem.textItem (toCsv ft)),
   Except.ok (RenderItem.textItem (downloadFileName sel))]

/-- Sequence a list of fallible blocks, stopping at the first failure (a
Python script aborts at the first uncaught exception). -/
def collectE {α : Type} : List (Except DashError α) → Except DashError (List α)
  | [] => Except.ok []
  | x :: xs =>
    match x with
    | Except.error e => Except.error e
    | Except.ok a =>
      match collectE xs with
      | Except.error e => Except.error e
      | Except.ok rest => Except.ok (a :: rest)

/-- One full render cycle of the script: compute the filtered table, then
run every render block in source order. -/
def renderDashboard (df : Table) (sel : FilterSel) : Except DashError (List RenderItem) :=
  match filteredDfE df sel with
  | Except.error e => Except.error e
  | Except.ok ft => collectE (renderBlocks df sel ft)

/-- Does a pipeline outcome consist of a missing-column failure? -/
def isMissingColumn {α : Type} : Except DashError α → Bool
  | Except.error (DashError.missingColumn _) => true
  | _ => false

/-- Does a pipeline outcome succeed? -/
def isOkE {α : Type} : Except DashError α → Bool
  | Except.ok _ => true
  | Except.error _ => false

/-- A filtered table on which `is_weekend` has a single distinct value. -/
def tblWeekendOne : Table :=
  { cols := ["is_weekend", "Time_taken (min)"],
    rows := [[Value.num 1, Value.num 20], [Value.num 1, Value.num 30]] }

/-- Two tables with the same columns and the same rows are equal. -/
theorem Table.eq_of (a b : Table) (h1 : a.cols = b.cols) (h2 : a.rows = b.rows) :
    a = b := by
  cases a; cases b; simp_all

theorem colValues_length (t : Table) (c : String) :
    (colValues t c).length = t.rows.length := by
  simp [colValues]

theorem filterEq_cols (t : Table) (c v : String) (b : Bool) :
    (filterEq t c v b).cols = t.cols := by
  cases b <;> simp [filterEq]

theorem filterEq_rows (t : Table) (c v : String) (b : Bool) :
    (filterEq t c v b).rows =
      t.rows.filter (fun r => !b || (lookupCell t.cols r c == Value.str v)) := by
  cases b <;> simp [filterEq]

theorem filteredDf_cols (df : Table) (sel : FilterSel) :
    (filteredDf df sel).cols = df.cols := by
  simp [filteredDf, filterEq_cols]

theorem filteredDf_rows (df : Table) (sel : FilterSel) :
    (filteredDf df sel).rows = df.rows.filter (rowKeepCode df.cols sel) := by
  simp only [filteredDf, filterEq_rows, filterEq_cols, List.filter_filter]
  rfl

theorem keepEntry_eq_specEntry (cols : List String) (c v : String) (r : Row)
    (h : v ≠ "All" → cols.contains c = true) :
    keepEntry cols c v r = specEntry cols c v r := by
  unfold keepEntry specEntry
  by_cases hv : v = "All"
  · subst hv; simp
  · have hc := h hv
    have hm : c ∈ cols := by simpa using hc
    have hb : (v == "All") = false := by
      simp [beq_iff_eq, hv]
    simp [hb, hm]

/-- C1: for every table and filter selection naming only present columns,
the filter engine (src/dashboard.py:79-87) returns exactly the
order-preserving subsequence of rows on which every non-`"All"` selection
entry matches the row's cell at that column; in particular on the Scenario A
table filtering `City=A` keeps 2 rows with mean `Time_taken (min)` of 25. -/
theorem C1_filter_engine (df : Table) (sel : FilterSel)
    (h1 : sel.city ≠ "All" → hasCol df "City" = true)
    (h2 : sel.weather ≠ "All" → hasCol df "Weather_conditions" = true)
    (h3 : sel.vehicle ≠ "All" → hasCol df "Type_of_vehicle" = true)
    (h4 : sel.festival ≠ "All" → hasCol df "Festival" = true) :
    (filteredDf df sel).cols = df.cols ∧
    (filteredDf df sel).rows = df.rows.filter (specKeep df.cols sel) ∧
    (filteredDf df sel).rows.Sublist df.rows ∧
    (filteredDf tblA selA).rows.length = 2 ∧
    scalarMean (filteredDf tblA selA) "Time_taken (min)" = some 25 := by
  refine ⟨filteredDf_cols df sel, ?_, ?_, ?_, ?_⟩
  · rw [filteredDf_rows]
    apply List.filter_congr
    intro r _
    simp only [rowKeepCode, specKeep]
    rw [keepEntry_eq_specEntry _ _ _ _ h4, keepEntry_eq_specEntry _ _ _ _ h3,
      keepEntry_eq_specEntry _ _ _ _ h2, keepEntry_eq_specEntry _ _ _ _ h1]
  · rw [filteredDf_rows]
    exact List.filter_sublist _
  · simp [filteredDf, filterEq, hasCol, tblA, selA, lookupCell]
  · simp [scalarMean, meanQ, numericVals, colValues, getCell, lookupCell,
      filteredDf, filterEq, hasCol, tblA, selA]
    norm_num

/-- Witness for C1 at the Scenario A table and selection. -/
theorem C1_filter_engine_witness :
    (filteredDf tblA selA).rows = tblA.rows.filter (specKeep tblA.cols selA) ∧
    (filteredDf tblA selA).rows.length = 2 ∧
    scalarMean (filteredDf tblA selA) "Time_taken (min)" = some 25 :=
  have h := C1_filter_engine tblA selA (by decide) (by decide) (by decide) (by decide)
  ⟨h.2.1, h.2.2.2.1, h.2.2.2.2⟩

/-- C5: for every table and filter selection, the filtered table has at most
as many rows as the original, and filtering twice with the same selection
equals filtering once. -/
theorem C5_filter_shrinking_idempotent (df : Table) (sel : FilterSel) :
    (filteredDf df sel).rows.length ≤ df.rows.length ∧
    filteredDf (filteredDf df sel) sel = filteredDf df sel := by
  constructor
  · rw [filteredDf_rows]
    exact List.length_filter_le _ _
  · apply Table.eq_of
    · rw [filteredDf_cols, filteredDf_cols]
    · rw [filteredDf_rows (filteredDf df sel) sel, filteredDf_cols, filteredDf_rows,
        List.filter_filter]
      apply List.filter_congr
      intro r _
      exact Bool.and_self _

theorem pct_bounds (k n : ℕ) (hk : k ≤ n) (hn : 0 < n) :
    0 ≤ (k : ℚ) / (n : ℚ) * 100 ∧ (k : ℚ) / (n : ℚ) * 100 ≤ 100 := by
  have hnq : (0 : ℚ) < (n : ℚ) := by exact_mod_cast hn
  constructor
  · positivity
  · have h1 : (k : ℚ) / (n : ℚ) ≤ 1 := by
      rw [div_le_one hnq]
      exact_mod_cast hk
    nlinarith

theorem eqMeanPct_bounds (vs : List Value) (s : String) (p : ℚ)
    (hp : eqMeanPct vs s = some p) : 0 ≤ p ∧ p ≤ 100 := by
  unfold eqMeanPct at hp
  by_cases he : vs.isEmpty = true
  · rw [if_pos he] at hp
    cases hp
  · rw [if_neg he] at hp
    have hlen : 0 < vs.length := by
      cases vs with
      | nil => simp at he
      | cons a l => simp
    have hb := pct_bounds (vs.countP (fun v => v == Value.str s)) vs.length
      (List.countP_le_length _) hlen
    have hpe : p = (vs.countP (fun v => v == Value.str s) : ℚ) / (vs.length : ℚ) * 100 :=
      (Option.some.inj hp).symm
    rw [hpe]
    exact hb

theorem excellent_deliveries_le (t : Table) : excellent_deliveries t ≤ t.rows.length := by
  unfold excellent_deliveries
  split
  · exact le_trans (List.countP_le_length _) (le_of_eq (colValues_length t _))
  · exact Nat.zero_le _

theorem high_satisfaction_le (t : Table) : high_satisfaction t ≤ t.rows.length := by
  unfold high_satisfaction
  split
  · exact le_trans (List.countP_le_length _) (le_of_eq (colValues_length t _))
  · exact Nat.zero_le _

/-- C2 as amended: the guarded Key-Metrics percentages are within `[0, 100]`
and equal `0` on an empty table (src/dashboard.py:106-113).  The
Business-insights percentages (src/dashboard.py:327-337) have no empty
guard: on an empty filtered table all three are NaN, not `0`; the two
equality-fraction ones (excellent deliveries, high satisfaction) are within
`[0, 100]` whenever they are a number, but the peak-hour one is the plain
`mean() * 100` of a numeric column and can leave `[0, 100]` — the one-row
column `is_peak_hour = [2]` yields 200. -/
theorem C2_percentage_where (t : Table) :
    (0 ≤ excellent_pct t ∧ excellent_pct t ≤ 100) ∧
    (0 ≤ satisfaction_pct t ∧ satisfaction_pct t ≤ 100) ∧
    (t.rows.length = 0 → excellent_pct t = 0 ∧ satisfaction_pct t = 0) ∧
    (∀ p : ℚ, insight_excellent_pct t = some (some p) → 0 ≤ p ∧ p ≤ 100) ∧
    (∀ p : ℚ, insight_high_sat_pct t = some (some p) → 0 ≤ p ∧ p ≤ 100) ∧
    (t.rows = [] →
      (hasCol t "delivery_performance" = true → insight_excellent_pct t = some none) ∧
      (hasCol t "customer_satisfaction" = true → insight_high_sat_pct t = some none) ∧
      (hasCol t "is_peak_hour" = true → insight_peak_pct t = some none)) ∧
    insight_peak_pct tblPeak2 = some (some 200) := by
  refine ⟨?_, ?_, ?_, ?_, ?_, ?_, ?_⟩
  · unfold excellent_pct
    split
    · exact pct_bounds _ _ (excellent_deliveries_le t) (by assumption)
    · norm_num
  · unfold satisfaction_pct
    split
    · exact pct_bounds _ _ (high_satisfaction_le t) (by assumption)
    · norm_num
  · intro h0
    unfold excellent_pct satisfaction_pct
    rw [if_neg, if_neg] <;> simp [total_deliveries, h0]
  · intro p hp
    unfold insight_excellent_pct at hp
    by_cases hc : hasCol t "delivery_performance" = true
    · rw [if_pos hc] at hp
      exact eqMeanPct_bounds _ _ p (Option.some.inj hp)
    · rw [if_neg hc] at hp
      cases hp
  · intro p hp
    unfold insight_high_sat_pct at hp
    by_cases hc : hasCol t "customer_satisfaction" = true
    · rw [if_pos hc] at hp
      exact eqMeanPct_bounds _ _ p (Option.some.inj hp)
    · rw [if_neg hc] at hp
      cases hp
  · intro h0
    refine ⟨?_, ?_, ?_⟩
    · intro hc
      unfold insight_excellent_pct eqMeanPct
      rw [if_pos hc, if_pos]
      simp [colValues, h0]
    · intro hc
      unfold insight_high_sat_pct eqMeanPct
      rw [if_pos hc, if_pos]
      simp [colValues, h0]
    · intro hc
      unfold insight_peak_pct
      rw [if_pos hc]
      simp [scalarMean, colValues, h0, numericVals, meanQ]
  · simp [insight_peak_pct, hasCol, tblPeak2, scalarMean, colValues, getCell, lookupCell,
      numericVals, meanQ]
    norm_num

/-- Counterexample to C2 as stated: on an empty filtered table with the
`delivery_performance` column, the Business-insights percentage
(src/dashboard.py:328) is NaN, not `0`. -/
theorem C2_counterexample :
    insight_excellent_pct tblEmptyPerf = some none ∧
    insight_excellent_pct tblEmptyPerf ≠ some (some 0) := by
  constructor <;> simp [insight_excellent_pct, eqMeanPct, hasCol, tblEmptyPerf, colValues]

/-- Witness for C2 at the empty-but-typed table and the one-row peak-hour
table. -/
theorem C2_percentage_where_witness :
    excellent_pct tblEmptyPerf = 0 ∧ satisfaction_pct tblEmptyPerf = 0 ∧
    insight_excellent_pct tblEmptyPerf = some none ∧
    insight_peak_pct tblPeak2 = some (some 200) :=
  have h := C2_percentage_where tblEmptyPerf
  ⟨(h.2.2.1 rfl).1, (h.2.2.1 rfl).2, (h.2.2.2.2.2.1 rfl).1 (by decide),
    (C2_percentage_where tblPeak2).2.2.2.2.2.2⟩

/-- C3 as amended: the key-metric means ignore missing values and are NaN
(undefined) when the column is present but has no numeric values — in
particular on an empty filtered table — but when the column is absent the
code (src/dashboard.py:98-103) falls back to the numeric default `0`
instead of an undefined value. -/
theorem C3_scalar_mean (t : Table) :
    (hasCol t "Time_taken (min)" = true → avg_time t = scalarMean t "Time_taken (min)") ∧
    (hasCol t "Time_taken (min)" = false → avg_time t = some 0) ∧
    (hasCol t "Delivery_person_Ratings" = true →
      avg_rating t = scalarMean t "Delivery_person_Ratings") ∧
    (hasCol t "Delivery_person_Ratings" = false → avg_rating t = some 0) ∧
    (∀ c, numericVals (colValues t c) = [] → scalarMean t c = none) ∧
    (t.rows = [] → ∀ c, scalarMean t c = none) ∧
    (∀ c xs, numericVals (colValues t c) = xs → xs ≠ [] →
      scalarMean t c = some (xs.sum / (xs.length : ℚ))) := by
  refine ⟨?_, ?_, ?_, ?_, ?_, ?_, ?_⟩
  · intro h; simp [avg_time, h]
  · intro h; simp [avg_time, h]
  · intro h; simp [avg_rating, h]
  · intro h; simp [avg_rating, h]
  · intro c h; simp [scalarMean, h, meanQ]
  · intro h c; simp [scalarMean, colValues, h, numericVals, meanQ]
  · intro c xs hxs hne
    simp [scalarMean, hxs, meanQ, List.isEmpty_iff, hne]

/-- Counterexample to C3 as stated: on a table without the
`Time_taken (min)` column, `avg_time` is the numeric default `0`, not an
undefined value. -/
theorem C3_counterexample :
    avg_time tblNoTime = some 0 ∧ avg_time tblNoTime ≠ none := by
  constructor <;> simp [avg_time, hasCol, tblNoTime]

/-- Witness for C3: the absent-column default and the empty-table NaN. -/
theorem C3_scalar_mean_witness :
    avg_time tblNoTime = some 0 ∧ avg_time tblTimeEmpty = none := by
  refine ⟨(C3_scalar_mean tblNoTime).2.1 rfl, ?_⟩
  have h := C3_scalar_mean tblTimeEmpty
  rw [h.1 rfl]
  exact h.2.2.2.2.2.1 rfl "Time_taken (min)"

/-- Counterexample to C4 as stated: the claimed rules give distinct labels
to averages 20 and 100, but the code's Operational-Insights output is the
same fixed warning-styled message in both cases — the thresholds are not
applied anywhere. -/
theorem C4_counterexample :
    specTimeLabel 20 = "excellent" ∧ specTimeLabel 100 = "needs improvement" ∧
    specTimeLabel 20 ≠ specTimeLabel 100 ∧
    (operationalInsights tblFast).map Prod.fst = [MsgStyle.warning] ∧
    (operationalInsights tblSlow).map Prod.fst = [MsgStyle.warning] := by
  refine ⟨?_, ?_, ?_, ?_, ?_⟩
  · norm_num [specTimeLabel]
  · norm_num [specTimeLabel]
  · norm_num [specTimeLabel]
    decide
  · simp [operationalInsights, hasCol, tblFast]
  · simp [operationalInsights, hasCol, tblSlow]

/-- C4 as amended: the Operational-Insights block applies no threshold
rules — the sequence of message styles it emits is a function of the table
schema alone and never depends on the metric values. -/
theorem C4_no_threshold_labels (t1 t2 : Table) (h : t1.cols = t2.cols) :
    (operationalInsights t1).map Prod.fst = (operationalInsights t2).map Prod.fst := by
  unfold operationalInsights hasCol
  rw [h]
  cases hc1 : t2.cols.contains "Time_taken (min)" <;>
    cases hc2 : t2.cols.contains "Delivery_person_Ratings" <;>
      cases hc3 : t2.cols.contains "Festival" <;>
        simp [hc1, hc2, hc3]

/-- Witness for C4: the style sequence is the same for the fast and the slow
table. -/
theorem C4_no_threshold_labels_witness :
    (operationalInsights tblFast).map Prod.fst = (operationalInsights tblSlow).map Prod.fst :=
  C4_no_threshold_labels tblFast tblSlow rfl

/-- Counterexample to C6 as stated: on 23 rows the claimed paginate with
page size 10 yields a 3-row page 3 (and page index 5 clamps to 3), but the
program's Raw-Data display shows all 23 rows — `head(1000)` — and is not
that page slice; the program has no paginate. -/
theorem C6_counterexample :
    total_pages tbl23.rows.length 10 = 3 ∧
    clampPage 5 (total_pages tbl23.rows.length 10) = 3 ∧
    (paginateSpec tbl23 10 3).length = 3 ∧
    (rawDataDisplay tbl23).length = 23 ∧
    rawDataDisplay tbl23 ≠ paginateSpec tbl23 10 3 := by
  refine ⟨by decide, by decide, by decide, by decide, by decide⟩

/-- C6 as amended: the Raw-Data display is the prefix of the filtered table
of length `min 1000 row_count`; there is no page index, no total-page
count and no clamping in the program. -/
theorem C6_raw_data_display (t : Table) :
    rawDataDisplay t ++ t.rows.drop 1000 = t.rows ∧
    (rawDataDisplay t).length = min 1000 t.rows.length :=
  ⟨List.take_append_drop _ _, by simp [rawDataDisplay, List.length_take]⟩

theorem listMin_le_base (x : ℚ) (xs : List ℚ) : listMin x xs ≤ x := by
  induction xs generalizing x with
  | nil => exact le_refl x
  | cons z zs ih => exact le_trans (ih (min x z)) (min_le_left x z)

theorem listMin_le_mem (x y : ℚ) (xs : List ℚ) (hy : y ∈ xs) : listMin x xs ≤ y := by
  induction xs generalizing x with
  | nil => cases hy
  | cons z zs ih =>
    rcases List.mem_cons.mp hy with h | h
    · subst h
      exact le_trans (listMin_le_base (min x y) zs) (min_le_right x y)
    · exact ih (min x z) h

theorem le_listMax_base (x : ℚ) (xs : List ℚ) : x ≤ listMax x xs := by
  induction xs generalizing x with
  | nil => exact le_refl x
  | cons z zs ih => exact le_trans (le_max_left x z) (ih (max x z))

theorem le_listMax_mem (x y : ℚ) (xs : List ℚ) (hy : y ∈ xs) : y ≤ listMax x xs := by
  induction xs generalizing x with
  | nil => cases hy
  | cons z zs ih =>
    rcases List.mem_cons.mp hy with h | h
    · subst h
      exact le_trans (le_max_right x y) (le_listMax_base (max x y) zs)
    · exact ih (max x z) h

theorem countP_range_eq (J k : ℕ) :
    (List.range k).countP (fun i => decide (i = J)) = if J < k then 1 else 0 := by
  induction k with
  | zero => simp
  | succ k ih =>
    rw [List.range_succ, List.countP_append, ih]
    simp only [List.countP_cons, List.countP_nil, decide_eq_true_eq]
    split_ifs <;> omega

theorem sum_map_add_nat {α : Type} (l : List α) (f g : α → ℕ) :
    (l.map (fun a => f a + g a)).sum = (l.map f).sum + (l.map g).sum := by
  induction l with
  | nil => rfl
  | cons a l ih =>
    simp only [List.map_cons, List.sum_cons, ih]
    omega

theorem sum_map_ite_eq_countP {α : Type} (l : List α) (q : α → Bool) :
    (l.map (fun a => if q a then 1 else 0)).sum = l.countP q := by
  induction l with
  | nil => rfl
  | cons a l ih =>
    simp only [List.map_cons, List.sum_cons, List.countP_cons, ih]
    cases hq : q a
    · simp [hq]
    · simp [hq]
      omega

theorem sum_map_countP (k : ℕ) (p : ℕ → ℚ → Bool) (xs : List ℚ)
    (h : ∀ y ∈ xs, (List.range k).countP (fun i => p i y) = 1) :
    ((List.range k).map (fun i => xs.countP (p i))).sum = xs.length := by
  induction xs with
  | nil => simp
  | cons y ys ih =>
    have hy := h y (List.mem_cons_self y ys)
    have hys : ∀ z ∈ ys, (List.range k).countP (fun i => p i z) = 1 :=
      fun z hz => h z (List.mem_cons_of_mem y hz)
    calc ((List.range k).map (fun i => (y :: ys).countP (p i))).sum
        = ((List.range k).map (fun i => ys.countP (p i) + if p i y then 1 else 0)).sum := by
          simp only [List.countP_cons]
      _ = ((List.range k).map (fun i => ys.countP (p i))).sum +
          ((List.range k).map (fun i => if p i y then 1 else 0)).sum :=
          sum_map_add_nat _ _ _
      _ = ys.length + 1 := by
          rw [ih hys, sum_map_ite_eq_countP, hy]
      _ = (y :: ys).length := by simp

theorem unique_bin (mn mx : ℚ) (k : ℕ) (hlt : mn < mx) (hk : 1 ≤ k)
    (y : ℚ) (h1 : mn ≤ y) (h2 : y ≤ mx) :
    (List.range k).countP
      (fun i => inBin mn ((mx - mn) / (k : ℚ)) mx k i y) = 1 := by
  have hk0 : (0 : ℚ) < (k : ℚ) := by exact_mod_cast hk
  set w : ℚ := (mx - mn) / (k : ℚ) with hw
  have hwpos : 0 < w := div_pos (sub_pos.mpr hlt) hk0
  have hkw : (k : ℚ) * w = mx - mn := by
    rw [hw]
    field_simp
  set u : ℚ := (y - mn) / w with hu
  have hu0 : 0 ≤ u := div_nonneg (by linarith) (le_of_lt hwpos)
  have huk : u ≤ (k : ℚ) := by
    rw [hu, div_le_iff₀ hwpos]
    linarith
  have huw : u * w = y - mn := by
    rw [hu]
    field_simp
  have hfl0 : 0 ≤ ⌊u⌋ := Int.floor_nonneg.mpr hu0
  set n : ℕ := (⌊u⌋).toNat with hn
  have hfn : ⌊u⌋ = (n : ℤ) := (Int.toNat_of_nonneg hfl0).symm
  have hnk : n ≤ k := by
    have h3 : ⌊u⌋ ≤ (k : ℤ) := by
      have h4 := Int.floor_le_floor huk
      rwa [Int.floor_natCast] at h4
    omega
  have key1 : ∀ i : ℕ, (mn + (i : ℚ) * w ≤ y) ↔ i ≤ n := by
    intro i
    constructor
    · intro h
      have h5 : (i : ℚ) ≤ u := by
        rw [hu, le_div_iff₀ hwpos]
        linarith
      have h6 : (i : ℤ) ≤ ⌊u⌋ := Int.le_floor.mpr (by exact_mod_cast h5)
      omega
    · intro h
      have h6 : (i : ℤ) ≤ ⌊u⌋ := by omega
      have h5 : ((i : ℤ) : ℚ) ≤ u := Int.le_floor.mp h6
      have h7 : (i : ℚ) * w ≤ u * w := by
        have h8 : ((i : ℤ) : ℚ) = (i : ℚ) := by push_cast; ring
        nlinarith
      linarith
  have key2 : ∀ i : ℕ, (y < mn + ((i : ℚ) + 1) * w) ↔ n < i + 1 := by
    intro i
    constructor
    · intro h
      have h5 : u < (i : ℚ) + 1 := by
        rw [hu, div_lt_iff₀ hwpos]
        linarith
      have h6 : ⌊u⌋ < (i : ℤ) + 1 := Int.floor_lt.mpr (by push_cast; linarith)
      omega
    · intro h
      have h6 : ⌊u⌋ < (i : ℤ) + 1 := by omega
      have h5 : u < ((i : ℤ) : ℚ) + 1 := by
        have h7 := Int.floor_lt.mp h6
        push_cast at h7 ⊢
        linarith
      have h8 : u * w < ((i : ℚ) + 1) * w := by
        have h9 : ((i : ℤ) : ℚ) = (i : ℚ) := by push_cast; ring
        nlinarith
      linarith
  set J : ℕ := min n (k - 1) with hJ
  have hJk : J < k := by omega
  have hpoint : ∀ i ∈ List.range k,
      ((inBin mn w mx k i y) = true ↔ (decide (i = J)) = true) := by
    intro i hi
    rw [List.mem_range] at hi
    simp only [decide_eq_true_eq]
    unfold inBin
    by_cases hik : i + 1 = k
    · rw [if_pos hik]
      simp only [decide_eq_true_eq]
      constructor
      · rintro ⟨hin, -⟩
        have h10 := (key1 i).mp hin
        omega
      · intro hiJ
        refine ⟨(key1 i).mpr ?_, h2⟩
        omega
    · rw [if_neg hik]
      simp only [decide_eq_true_eq]
      rw [key1 i, key2 i]
      omega
  rw [List.countP_congr hpoint, countP_range_eq, if_pos hJk]

theorem histogram_sum (xs : List ℚ) (k : ℕ) (hk : 1 ≤ k) :
    ((histogram xs k).map Prod.snd).sum = xs.length := by
  cases xs with
  | nil => rfl
  | cons x rest =>
    by_cases heq : listMin x rest = listMax x rest
    · simp [histogram, heq]
    · have hle : listMin x rest ≤ listMax x rest :=
        le_trans (listMin_le_base x rest) (le_listMax_base x rest)
      have hlt : listMin x rest < listMax x rest := lt_of_le_of_ne hle heq
      simp only [histogram, if_neg heq, List.map_map]
      apply sum_map_countP
      intro y hy
      have hmn : listMin x rest ≤ y := by
        rcases List.mem_cons.mp hy with h | h
        · rw [h]
          exact listMin_le_base x rest
        · exact listMin_le_mem x y rest h
      have hmx : y ≤ listMax x rest := by
        rcases List.mem_cons.mp hy with h | h
        · rw [h]
          exact le_listMax_base x rest
        · exact le_listMax_mem x y rest h
      exact unique_bin _ _ k hlt hk y hmn hmx

/-- C7: the Distribution Binner (modelled from the spec; realised by the
external `px.histogram` calls of src/dashboard.py:137-153) drops missing
values, collapses to one point-spanning bin when min equals max, and for
any bin count of at least 1 its frequencies sum to the number of
non-missing values of the source column; Scenario C: `[5,5,5,5]` with 20
requested bins gives the single bin `"5-5"` of frequency 4. -/
theorem C7_distribution_binner (t : Table) (c : String) (k : ℕ) (hk : 1 ≤ k) :
    ((histogramT t c k).map Prod.snd).sum = (numericVals (colValues t c)).length ∧
    (∀ x rest, numericVals (colValues t c) = x :: rest → listMin x rest = listMax x rest →
      histogramT t c k = [(binLabel (listMin x rest) (listMax x rest), (x :: rest).length)]) ∧
    histogramT tblFives "v" 20 = [("5-5", 4)] := by
  refine ⟨histogram_sum _ k hk, ?_, ?_⟩
  · intro x rest hx heq
    rw [histogramT, hx]
    simp [histogram, heq]
  · decide

/-- Witness for C7 at the Scenario C table and a bin count of 20. -/
theorem C7_distribution_binner_witness :
    ((histogramT tblFives "v" 20).map Prod.snd).sum =
      (numericVals (colValues tblFives "v")).length :=
  (C7_distribution_binner tblFives "v" 20 (by norm_num)).1

/-- C9: the download is the CSV byte stream of the currently filtered
table: its first line is the header of the original table's column names,
it has one further line per filtered row, every data line has exactly one
field per column (no index column), fields are comma-joined, and the file
name is a function of the active filter selection (its city and weather
components). -/
theorem C9_download_csv (df : Table) (sel : FilterSel)
    (hw : ∀ r ∈ df.rows, r.length = df.cols.length) :
    downloadData df sel =
      String.intercalate "\n" ((csvLines (filteredDf df sel)).map (String.intercalate ",")) ++ "\n" ∧
    (csvLines (filteredDf df sel)).head? = some df.cols ∧
    (csvLines (filteredDf df sel)).length = (filteredDf df sel).rows.length + 1 ∧
    (∀ line ∈ (csvLines (filteredDf df sel)).tail, line.length = df.cols.length) ∧
    downloadFileName sel = "zomato_filtered_data_" ++ sel.city ++ "_" ++ sel.weather ++ ".csv" := by
  refine ⟨rfl, ?_, ?_, ?_, rfl⟩
  · simp [csvLines, filteredDf_cols]
  · simp [csvLines]
  · intro line hl
    simp only [csvLines, List.tail_cons, List.mem_map] at hl
    obtain ⟨r, hr, rfl⟩ := hl
    have hrdf : r ∈ df.rows := by
      rw [filteredDf_rows] at hr
      exact List.mem_of_mem_filter hr
    simp [hw r hrdf]

/-- Witness for C9 at the Scenario A table and selection. -/
theorem C9_download_csv_witness :
    (csvLines (filteredDf tblA selA)).head? = some tblA.cols ∧
    downloadFileName selA =
      "zomato_filtered_data_" ++ selA.city ++ "_" ++ selA.weather ++ ".csv" :=
  have h := C9_download_csv tblA selA (by decide)
  ⟨h.2.1, h.2.2.2.2⟩

theorem length_insertBy {α : Type} (le : α → α → Bool) (x : α) (l : List α) :
    (insertBy le x l).length = l.length + 1 := by
  induction l with
  | nil => rfl
  | cons y ys ih =>
    unfold insertBy
    split
    · rfl
    · simp [ih]

theorem length_sortBy {α : Type} (le : α → α → Bool) (l : List α) :
    (sortBy le l).length = l.length := by
  induction l with
  | nil => rfl
  | cons y ys ih =>
    show (insertBy le y (sortBy le ys)).length = ys.length + 1
    rw [length_insertBy, ih]

theorem groupMean_length (t : Table) (gc mc : String) :
    (groupMean t gc mc).length = (groupKeys t gc).length := by
  simp [groupMean]

theorem guardE_eq {α : Type} (t : Table) (c : String) (f : List Value → α) (dflt : α) :
    guardE t c f dflt = Except.ok (if hasCol t c then f (colValues t c) else dflt) := by
  unfold guardE requireCol
  cases h : hasCol t c <;> simp [h]

theorem guard2E_eq {α : Type} (t : Table) (c1 c2 : String) (f : List Value → List Value → α)
    (dflt : α) :
    guard2E t c1 c2 f dflt =
      Except.ok (if hasCol t c1 && hasCol t c2 then
        f (colValues t c1) (colValues t c2) else dflt) := by
  unfold guard2E requireCol
  cases h1 : hasCol t c1 <;> cases h2 : hasCol t c2 <;> simp [h1, h2]

theorem filterEqE_eq (t : Table) (c v : String) (b : Bool)
    (h : b = true → hasCol t c = true) :
    filterEqE t c v b = Except.ok (filterEq t c v b) := by
  cases b with
  | false => simp [filterEqE, filterEq]
  | true =>
    have hc := h rfl
    simp [filterEqE, filterEq, requireCol, hc]

theorem hasCol_congr (t1 t2 : Table) (c : String) (h : t1.cols = t2.cols) :
    hasCol t1 c = hasCol t2 c := by
  unfold hasCol
  rw [h]

theorem filteredDfE_eq (df : Table) (sel : FilterSel) :
    filteredDfE df sel = Except.ok (filteredDf df sel) := by
  have e1 := filterEqE_eq df "City" sel.city
    (!(sel.city == "All") && hasCol df "City")
    (fun hb => ((Bool.and_eq_true _ _).mp hb).2)
  have e2 := filterEqE_eq (filterEq df "City" sel.city
      (!(sel.city == "All") && hasCol df "City")) "Weather_conditions" sel.weather
    (!(sel.weather == "All") && hasCol df "Weather_conditions")
    (fun hb => by
      rw [hasCol_congr _ df _ (filterEq_cols _ _ _ _)]
      exact ((Bool.and_eq_true _ _).mp hb).2)
  have e3 := filterEqE_eq (filterEq (filterEq df "City" sel.city
      (!(sel.city == "All") && hasCol df "City")) "Weather_conditions" sel.weather
      (!(sel.weather == "All") && hasCol df "Weather_conditions"))
    "Type_of_vehicle" sel.vehicle
    (!(sel.vehicle == "All") && hasCol df "Type_of_vehicle")
    (fun hb => by
      rw [hasCol_congr _ df _ (by rw [filterEq_cols, filterEq_cols])]
      exact ((Bool.and_eq_true _ _).mp hb).2)
  have e4 := filterEqE_eq (filterEq (filterEq (filterEq df "City" sel.city
      (!(sel.city == "All") && hasCol df "City")) "Weather_conditions" sel.weather
      (!(sel.weather == "All") && hasCol df "Weather_conditions"))
      "Type_of_vehicle" sel.vehicle
      (!(sel.vehicle == "All") && hasCol df "Type_of_vehicle"))
    "Festival" sel.festival
    (!(sel.festival == "All") && hasCol df "Festival")
    (fun hb => by
      rw [hasCol_congr _ df _ (by rw [filterEq_cols, filterEq_cols, filterEq_cols])]
      exact ((Bool.and_eq_true _ _).mp hb).2)
  simp only [filteredDfE, filteredDf, e1, e2, e3, e4]

theorem guardE_not_missing {α : Type} (t : Table) (c : String) (f : List Value → α)
    (dflt : α) : isMissingColumn (guardE t c f dflt) = false := by
  rw [guardE_eq]
  rfl

theorem guard2E_not_missing {α : Type} (t : Table) (c1 c2 : String)
    (f : List Value → List Value → α) (dflt : α) :
    isMissingColumn (guard2E t c1 c2 f dflt) = false := by
  rw [guard2E_eq]
  rfl

theorem weekendItemE_eq (t : Table) :
    weekendItemE t =
      if hasCol t "is_weekend" && hasCol t "Time_taken (min)" then
        (if (groupMean t "is_weekend" "Time_taken (min)").length = 2 then
          Except.ok (RenderItem.relabeled (List.zip ["Weekday", "Weekend"]
            ((groupMean t "is_weekend" "Time_taken (min)").map Prod.snd)))
        else Except.error DashError.lengthMismatch)
      else Except.ok RenderItem.skipped := by
  unfold weekendItemE requireCol
  cases h1 : hasCol t "is_weekend" <;> cases h2 : hasCol t "Time_taken (min)" <;>
    simp [h1, h2]

theorem weekendItemE_not_missing (t : Table) :
    isMissingColumn (weekendItemE t) = false := by
  rw [weekendItemE_eq]
  split
  · split <;> rfl
  · rfl

theorem collectE_not_missing {α : Type} (l : List (Except DashError α))
    (h : ∀ x ∈ l, isMissingColumn x = false) :
    isMissingColumn (collectE l) = false := by
  induction l with
  | nil => rfl
  | cons x xs ih =>
    have hx := h x (List.mem_cons_self x xs)
    have hxs := ih (fun z hz => h z (List.mem_cons_of_mem x hz))
    cases x with
    | error e =>
      cases e with
      | missingColumn c => simp [isMissingColumn] at hx
      | lengthMismatch => simp [collectE, isMissingColumn]
    | ok a =>
      cases hcx : collectE xs with
      | error e =>
        rw [hcx] at hxs
        simpa [collectE, hcx] using hxs
      | ok rest =>
        simp [collectE, hcx, isMissingColumn]

theorem guardE_isOk {α : Type} (t : Table) (c : String) (f : List Value → α) (dflt : α) :
    isOkE (guardE t c f dflt) = true := by
  rw [guardE_eq]
  rfl

theorem guard2E_isOk {α : Type} (t : Table) (c1 c2 : String)
    (f : List Value → List Value → α) (dflt : α) :
    isOkE (guard2E t c1 c2 f dflt) = true := by
  rw [guard2E_eq]
  rfl

theorem collectE_all_ok {α : Type} (l : List (Except DashError α))
    (h : ∀ x ∈ l, isOkE x = true) : isOkE (collectE l) = true := by
  induction l with
  | nil => rfl
  | cons x xs ih =>
    have hx := h x (List.mem_cons_self x xs)
    have hxs := ih (fun z hz => h z (List.mem_cons_of_mem x hz))
    cases x with
    | error e => simp [isOkE] at hx
    | ok a =>
      cases hcx : collectE xs with
      | error e =>
        rw [hcx] at hxs
        simp [isOkE] at hxs
      | ok rest =>
        simp [collectE, hcx, isOkE]

set_option maxHeartbeats 2000000 in
/-- C8: for every input table and filter selection, one full render cycle
of the script never fails with a missing-column error — every column access
sits behind an `in df.columns` guard, absence merely producing the block's
fallback — and when the `is_weekend` column is absent from the filtered
table the whole pipeline succeeds outright (the weekend relabelling being
its only other failure source). -/
theorem C8_missing_columns_tolerated (df : Table) (sel : FilterSel) :
    isMissingColumn (renderDashboard df sel) = false ∧
    (hasCol (filteredDf df sel) "is_weekend" = false →
      isOkE (renderDashboard df sel) = true) := by
  constructor
  · unfold renderDashboard
    rw [filteredDfE_eq]
    show isMissingColumn (collectE (renderBlocks df sel (filteredDf df sel))) = false
    apply collectE_not_missing
    intro x hx
    simp only [renderBlocks, List.mem_cons, List.not_mem_nil, or_false] at hx
    rcases hx with rfl|rfl|rfl|rfl|rfl|rfl|rfl|rfl|rfl|rfl|rfl|rfl|rfl|rfl|rfl|rfl|rfl|rfl|rfl|rfl|rfl|rfl|rfl|rfl|rfl|rfl|rfl|rfl|rfl|rfl|rfl|rfl|rfl|rfl
    all_goals
      first
        | rfl
        | exact guardE_not_missing _ _ _ _
        | exact guard2E_not_missing _ _ _ _ _
        | exact weekendItemE_not_missing _
  · intro hw
    unfold renderDashboard
    rw [filteredDfE_eq]
    show isOkE (collectE (renderBlocks df sel (filteredDf df sel))) = true
    apply collectE_all_ok
    intro x hx
    simp only [renderBlocks, List.mem_cons, List.not_mem_nil, or_false] at hx
    rcases hx with rfl|rfl|rfl|rfl|rfl|rfl|rfl|rfl|rfl|rfl|rfl|rfl|rfl|rfl|rfl|rfl|rfl|rfl|rfl|rfl|rfl|rfl|rfl|rfl|rfl|rfl|rfl|rfl|rfl|rfl|rfl|rfl|rfl|rfl
    all_goals
      first
        | rfl
        | exact guardE_isOk _ _ _ _
        | exact guard2E_isOk _ _ _ _ _
        | (rw [weekendItemE_eq, hw]; rfl)

/-- Witness for C8 at the Scenario A table, which has no `is_weekend`
column. -/
theorem C8_missing_columns_tolerated_witness :
    isMissingColumn (renderDashboard tblA selA) = false ∧
    isOkE (renderDashboard tblA selA) = true :=
  have h := C8_missing_columns_tolerated tblA selA
  ⟨h.1, h.2 (by decide)⟩

/-- C10: whenever the filtered table has both the `is_weekend` and the
`Time_taken (min)` columns, the weekend-vs-weekday block succeeds exactly
when `is_weekend` has two distinct (non-missing) values; with a single
distinct value the positional relabelling to `['Weekday', 'Weekend']` fails
with the pandas length-mismatch error instead of degrading gracefully. -/
theorem C10_weekend_single_group (t : Table)
    (h1 : hasCol t "is_weekend" = true) (h2 : hasCol t "Time_taken (min)" = true) :
    ((groupKeys t "is_weekend").length = 1 →
      weekendItemE t = Except.error DashError.lengthMismatch) ∧
    (∀ it, weekendItemE t = Except.ok it → (groupKeys t "is_weekend").length = 2) := by
  have hgm := groupMean_length t "is_weekend" "Time_taken (min)"
  rw [weekendItemE_eq, h1, h2]
  simp only [Bool.and_self, if_true]
  constructor
  · intro hlen
    rw [if_neg (by omega)]
  · intro it hit
    by_cases hl : (groupMean t "is_weekend" "Time_taken (min)").length = 2
    · omega
    · rw [if_neg hl] at hit
      cases hit

/-- Witness for C10: the weekend block fails with the length mismatch on a
two-row all-weekend table. -/
theorem C10_weekend_single_group_witness :
    weekendItemE tblWeekendOne = Except.error DashError.lengthMismatch :=
  (C10_weekend_single_group tblWeekendOne (by decide) (by decide)).1 (by decide)
